import Mathlib

/-!
Shallow embedding of the barbershop scheduling bot (`src/main.js`).

The repository contains two variants of the same bot (a SQLite-backed one and
a MongoDB-backed one) whose scheduling logic is line-for-line identical; the
constants and record shapes below follow the MongoDB variant (the second half
of `main.js`), which is the one the claims cite by line range alongside the
SQLite twin.

Modelling conventions, stated once:
* JavaScript `Date` arithmetic is embedded through day numbers since the Unix
  epoch (`daysFromCivil` / `civilFromDays`, the standard civil-calendar
  conversion used by ECMAScript `MakeDay`/date rendering since both are the
  proleptic Gregorian calendar).  The host's local time zone is modelled as
  UTC, so local-midnight and `toISOString` agree.
* `Date.now()` is an `Int` parameter `now` in milliseconds; the one or two
  `Date.now()` calls inside a single handler invocation are modelled as the
  same instant.
* The external store always succeeds; its collections are Lean lists carried
  in `BotState`.  `deleteOne` removes the first match, `find` preserves
  insertion order, inserts append.
* Outbound `client.sendMessage` calls are recorded in `BotState.enviadas`
  as (recipient, text) pairs.  Logging (`winston`) is not modelled.
* Record `timestamp` fields store `new Date().toISOString()` in the source;
  since no logic reads them we store the millisecond instant itself.
* Side-conversation idle timers (`setTimeout` handles) are transport-level
  callbacks; the sessions' `ativo`/`ultimoContato` data is modelled, the
  timer handle is not (no claim concerns the timer firing).
-/

/-- Days since 1970-01-01 of a proleptic-Gregorian civil date (y, m, d),
month shift and era decomposition exactly as in ECMAScript `MakeDay`
(Euclidean `/` and `%` coincide with JavaScript floor-division and
positive modulus here because every divisor is positive). -/
def daysFromCivil (y m d : Int) : Int :=
  let y2 := if m ≤ 2 then y - 1 else y
  let era := y2 / 400
  let yoe := y2 - era * 400
  let mp := (m + 9) % 12
  let doy := (153 * mp + 2) / 5 + d - 1
  let doe := yoe * 365 + yoe / 4 - yoe / 100 + doy
  era * 146097 + doe - 719468

/-- Civil date (y, m, d) of a day number (days since 1970-01-01); inverse of
`daysFromCivil`, as used by ECMAScript `YearFromTime`/`MonthFromTime`/
`DateFromTime` when rendering `toISOString`. -/
def civilFromDays (z0 : Int) : Int × Int × Int :=
  let z := z0 + 719468
  let era := z / 146097
  let doe := z - era * 146097
  let yoe := (doe - doe / 1460 + doe / 36524 - doe / 146096) / 365
  let y := yoe + era * 400
  let doy := doe - (365 * yoe + yoe / 4 - yoe / 100)
  let mp := (5 * doy + 2) / 153
  let d := doy - (153 * mp + 2) / 5 + 1
  let m := mp + (if mp < 10 then 3 else -9)
  (if m ≤ 2 then y + 1 else y, m, d)

/-- ECMAScript `WeekDay`: day of week of a day number, 0 = Sunday
(1970-01-01 was a Thursday, weekday 4). -/
def jsWeekday (z : Int) : Int := (z + 4) % 7

/-- ECMAScript `MakeDay(y, m, d)` with 0-based month `m`: out-of-range month
and day-of-month roll over arithmetically (this rollover is why
`new Date(2025, 1, 31)` silently becomes 2025-03-03). -/
def jsMakeDay (y m d : Int) : Int :=
  daysFromCivil (y + m / 12) (m % 12 + 1) 1 + (d - 1)

/-- The `new Date(year, month, day)` constructor: a year in 0..99 is
interpreted as 1900+year, then `MakeDay`. -/
def jsDateCtorDays (y m d : Int) : Int :=
  jsMakeDay (if 0 ≤ y ∧ y ≤ 99 then y + 1900 else y) m d

/-- ECMAScript `TimeClip` at day granularity: a time value is a valid (non-NaN)
instant iff it is within 8.64e15 ms of the epoch, i.e. the day number is
within 1e8 days.  `new Date(y, m, d)` with finite arguments is an Invalid
Date exactly when this fails. -/
def jsDayInRange (z : Int) : Bool := z.natAbs ≤ 100000000

/-- Numeric value of a decimal digit character. -/
def digitVal (c : Char) : Nat := c.toNat - 48

/-- Decimal digit character for `k % 10`. -/
def digitChar (k : Nat) : Char := Char.ofNat (48 + k % 10)

/-- Two-digit zero-padded rendering (as a character list). -/
def pad2 (n : Nat) : List Char := [digitChar (n / 10), digitChar n]

/-- Four-digit zero-padded rendering (as a character list). -/
def pad4 (n : Nat) : List Char :=
  [digitChar (n / 1000), digitChar (n / 100), digitChar (n / 10), digitChar n]

/-- Six-digit zero-padded rendering, for `toISOString` expanded years. -/
def pad6 (n : Nat) : List Char :=
  [digitChar (n / 100000), digitChar (n / 10000), digitChar (n / 1000),
   digitChar (n / 100), digitChar (n / 10), digitChar n]

/-- Character list of the `YYYY-MM-DD` rendering of a civil date, including
`toISOString`'s expanded form for years outside 0..9999. -/
def isoChars (y m d : Int) : List Char :=
  (if y < 0 then '-' :: pad6 y.natAbs
   else if y ≤ 9999 then pad4 y.toNat
   else '+' :: pad6 y.toNat) ++ '-' :: (pad2 m.toNat ++ '-' :: pad2 d.toNat)

/-- `new Date(ms).toISOString().split('T')[0]` for the instant
`z * 86400000`: the date-only prefix of the ISO rendering of day `z`. -/
def isoOfDays (z : Int) : String :=
  ⟨isoChars (civilFromDays z).1 (civilFromDays z).2.1 (civilFromDays z).2.2⟩

/-- ECMAScript date-only string parsing (`new Date("YYYY-MM-DD")`): the
grammar requires four-two-two digits with month 01..12 and day 01..31; a
day beyond the month's length rolls over via `MakeDay` (e.g. "2025-02-31"
parses to 2025-03-03).  Returns the day number, or `none` for an Invalid
Date. -/
def isoParseDays (s : String) : Option Int :=
  match s.toList with
  | [a1, a2, a3, a4, '-', m1, m2, '-', d1, d2] =>
    if a1.isDigit ∧ a2.isDigit ∧ a3.isDigit ∧ a4.isDigit ∧ m1.isDigit ∧
        m2.isDigit ∧ d1.isDigit ∧ d2.isDigit then
      let y : Int := (digitVal a1 * 1000 + digitVal a2 * 100 + digitVal a3 * 10 + digitVal a4 : Nat)
      let m : Int := (digitVal m1 * 10 + digitVal m2 : Nat)
      let d : Int := (digitVal d1 * 10 + digitVal d2 : Nat)
      if 1 ≤ m ∧ m ≤ 12 ∧ 1 ≤ d ∧ d ≤ 31 then some (jsMakeDay y (m - 1) d)
      else none
    else none
  | _ => none

/-- `new Date(`${data}T${hora}:00`)` (local = UTC): millisecond value of a
date string plus an `HH:MM` time, `none` when either part is invalid. -/
def parseDataHoraMs (data hora : String) : Option Int :=
  match isoParseDays data with
  | none => none
  | some z =>
    match hora.toList with
    | [h1, h2, ':', n1, n2] =>
      if h1.isDigit ∧ h2.isDigit ∧ n1.isDigit ∧ n2.isDigit ∧
          digitVal h1 * 10 + digitVal h2 ≤ 23 ∧ digitVal n1 * 10 + digitVal n2 ≤ 59 then
        some (z * 86400000 +
          ((digitVal h1 * 10 + digitVal h2) * 60 + (digitVal n1 * 10 + digitVal n2) : Nat) * 60000)
      else none
    | _ => none

/-- ASCII whitespace, for `trim` (JavaScript also trims some Unicode space
characters; only ASCII whitespace can reach the trims modelled here). -/
def isWs (c : Char) : Bool :=
  c == ' ' || c == '\t' || c == '\n' || c == '\r' || c == '\x0b' || c == '\x0c'

/-- `String.prototype.trim`. -/
def strTrim (s : String) : String :=
  ⟨((s.toList.dropWhile isWs).reverse.dropWhile isWs).reverse⟩

/-- `String.prototype.toLowerCase` (ASCII range). -/
def strToLower (s : String) : String := ⟨s.toList.map Char.toLower⟩

/-- `String.prototype.endsWith`. -/
def strEndsWith (s suffix : String) : Bool := suffix.toList.isSuffixOf s.toList

/-- `String.prototype.startsWith`. -/
def strStartsWith (s pref : String) : Bool := pref.toList.isPrefixOf s.toList

/-- `String.prototype.split` with a single-character separator. -/
def splitChar (sep : Char) : List Char → List (List Char)
  | [] => [[]]
  | c :: rest =>
    let r := splitChar sep rest
    if c == sep then [] :: r else (c :: r.headD []) :: r.tail

/-- `split` packaged on strings. -/
def strSplit (sep : Char) (s : String) : List String :=
  (splitChar sep s.toList).map (fun l => ⟨l⟩)

/-- Lexicographic (codepoint-wise) comparison of character lists: the order
MongoDB/BSON and SQLite use for the stored ASCII date strings. -/
def charListLt : List Char → List Char → Bool
  | [], [] => false
  | [], _ :: _ => true
  | _ :: _, [] => false
  | a :: as, b :: bs => Nat.blt a.toNat b.toNat || (a == b && charListLt as bs)

/-- String comparison `s < t` as performed by the store. -/
def strLt (s t : String) : Bool := charListLt s.toList t.toList

/-- `Array.prototype.join(sep)`. -/
def strJoin (sep : String) : List String → String
  | [] => ""
  | x :: xs => xs.foldl (fun acc y => acc ++ sep ++ y) x

/-- JavaScript `parseInt` in base 10: trim, optional sign, then the longest
leading digit run; `none` models `NaN`. -/
def jsParseInt (s : String) : Option Int :=
  let t := (strTrim s).toList
  let sgn : Int := match t with | '-' :: _ => -1 | _ => 1
  let body := match t with | '-' :: cs => cs | '+' :: cs => cs | cs => cs
  let ds := body.takeWhile Char.isDigit
  if ds.isEmpty then none
  else some (sgn * ((ds.foldl (fun n c => 10 * n + digitVal c) (0 : Nat) : Nat) : Int))

/-- `validarHorario` (main.js): the regex `^([0-1][0-9]|2[0-3]):[0-5][0-9]$`. -/
def validarHorario (horario : String) : Bool :=
  match horario.toList with
  | [h1, h2, c, n1, n2] =>
    (((h1 == '0' || h1 == '1') && h2.isDigit) ||
      (h1 == '2' && h2.isDigit && h2.toNat ≤ 51)) &&
    c == ':' && n1.isDigit && n1.toNat ≤ 53 && n2.isDigit
  | _ => false

/-- `validarData` (main.js): the regex `^(\d{2})\/(\d{2})\/(\d{4})$` followed
by `!isNaN(new Date(ano, mes - 1, dia))`.  The constructor check is the
`TimeClip` range test: with finite numeric arguments the constructed Date is
NaN only when out of the ±1e8-day range, because out-of-range month/day
components roll over rather than failing. -/
def validarData (data : String) : Bool :=
  match data.toList with
  | [d1, d2, s1, m1, m2, s2, a1, a2, a3, a4] =>
    d1.isDigit && d2.isDigit && s1 == '/' && m1.isDigit && m2.isDigit &&
    s2 == '/' && a1.isDigit && a2.isDigit && a3.isDigit && a4.isDigit &&
    jsDayInRange (jsDateCtorDays
      ((digitVal a1 * 1000 + digitVal a2 * 100 + digitVal a3 * 10 + digitVal a4 : Nat) : Int)
      (((digitVal m1 * 10 + digitVal m2 : Nat) : Int) - 1)
      ((digitVal d1 * 10 + digitVal d2 : Nat) : Int))
  | _ => false

/-- An `Agendamento` (appointment) document. -/
structure Agendamento where
  nome : String
  data : String
  hora : String
  sender : String
  timestamp : Int
  deriving DecidableEq, Repr

/-- A `Feedback` document. -/
structure FeedbackRec where
  nome : String
  comentario : String
  avaliacao : Int
  timestamp : Int
  deriving DecidableEq, Repr

/-- A `Cancelamento` (cancellation) document. -/
structure Cancelamento where
  nome : String
  data : String
  hora : String
  motivo : String
  timestamp : Int
  deriving DecidableEq, Repr

/-- One user's entry in the `estados` map. -/
structure Estado where
  ultimoContato : Int
  etapa : Option String := none
  data : Option String := none
  hora : Option String := none
  agendamento : Option (String × String × String) := none
  deriving DecidableEq, Repr

/-- One user's entry in the `conversasChocolate` map (idle-timer handle not
modelled). -/
structure Conversa where
  ativo : Bool
  ultimoContato : Int
  deriving DecidableEq, Repr

/-- The process-wide `ultimoAgendamento` suppression marker. -/
structure UltimoAgendamento where
  sender : String
  timestamp : Int
  deriving DecidableEq, Repr

/-- The full mutable state of the process: the three store collections, the
two per-user maps, the suppression marker, and the outbound-message log. -/
structure BotState where
  agendamentos : List Agendamento := []
  feedbacks : List FeedbackRec := []
  cancelamentos : List Cancelamento := []
  estados : List (String × Estado) := []
  conversasChocolate : List (String × Conversa) := []
  ultimoAgendamento : Option UltimoAgendamento := none
  enviadas : List (String × String) := []
  deriving DecidableEq, Repr

/-- Overwrite-or-insert into an association list (JS `Map.set`). -/
def mapSet {α : Type} (k : String) (v : α) : List (String × α) → List (String × α)
  | [] => [(k, v)]
  | (k', v') :: rest => if k' = k then (k, v) :: rest else (k', v') :: mapSet k v rest

/-- Remove a key from an association list (JS `Map.delete`). -/
def mapDel {α : Type} (k : String) (m : List (String × α)) : List (String × α) :=
  m.filter (fun p => p.1 ≠ k)

/-- `ADMIN_PHONE` (the `.env` default). -/
def ADMIN_PHONE : String := "+5582993230395@c.us"

/-- `INFO` constants (MongoDB variant). -/
def INFO_horario : String := "Seg a Sáb: 9h às 21h."

def INFO_endereco : String := "Tv. Dona Alzira Aguiar - Pajuçara, Maceió - AL, 57030-680."

/-- One entry of the `ESTILOS` table. -/
structure Estilo where
  sugestao : String
  barbeiro : String
  preco : Int
  deriving DecidableEq, Repr

/-- The `ESTILOS` table, in object-literal insertion order. -/
def ESTILOS : List (String × Estilo) :=
  [("cabelo curto", ⟨"Corte Militar", "Chocolate", 50⟩),
   ("cabelo longo", ⟨"Corte Surfer", "Chocolate", 60⟩),
   ("barba cheia", ⟨"Barba Lenador", "Chocolate", 40⟩),
   ("barba rala", ⟨"Barba Desenhada", "Chocolate", 35⟩),
   ("degrade", ⟨"Degradê Navalhado", "Chocolate", 55⟩)]

/-- `mostrarMenu()`. -/
def mostrarMenu : String :=
  "E aí, qual é o plano? 😎\n1. Agendar um corte 📝\n2. Cancelar agendamento\n3. Ver agendamentos\n4. Horário da barbearia 🕛\n5. Onde fica? 🌎\n6. Papo com o Chocolate 🗣️\n7. Sair"

/-- `getEstado(sender)`: fetch the user's state, creating
`{ultimoContato: Date.now()}` when absent.  Returns the state and the
(possibly extended) map. -/
def getEstado (sender : String) (now : Int) (st : BotState) : Estado × BotState :=
  match st.estados.lookup sender with
  | some e => (e, st)
  | none =>
    let e : Estado := { ultimoContato := now }
    (e, { st with estados := mapSet sender e st.estados })

/-- `notificarAdmin(client, mensagem)`. -/
def notificarAdmin (mensagem : String) (st : BotState) : BotState :=
  { st with enviadas := st.enviadas ++ [(ADMIN_PHONE, mensagem)] }

/-- `listarHorarios(sender)`: despite its name this sets the user's step to
`"data"` and returns the date-entry prompt. -/
def listarHorarios (sender : String) (now : Int) (st : BotState) : String × BotState :=
  let (estado, st) := getEstado sender now st
  ("Digite a data do agendamento (DD/MM/YYYY) ou \x27sair\x27 para voltar ao menu:",
   { st with estados := mapSet sender { estado with etapa := some "data" } st.estados })

/-- Minutes-of-day labels of the half-hour slot loop from `horaInicio` to
`horaFim` (exclusive). -/
def slotTimes (horaInicio horaFim : Int) : List Int :=
  (List.range ((horaFim - horaInicio).toNat * 2)).map (fun k => horaInicio * 60 + 30 * k)

/-- `toTimeString().slice(0, 5)`: the `HH:MM` label of a minutes-of-day value. -/
def horaLabel (t : Int) : String :=
  ⟨pad2 (t / 60).toNat ++ ':' :: pad2 (t % 60).toNat⟩

/-- One line of the availability listing: a slot is booked when some
appointment of the day has exactly this `hora` label, and only the admin
sees the occupant's name. -/
def slotLine (isAdmin : Bool) (rows : List Agendamento) (h : String) : String :=
  match rows.find? (fun a => a.hora == h) with
  | some a => h ++ " ⏰ (agendado" ++ (if isAdmin then " - " ++ a.nome else "") ++ ")"
  | none => h ++ " ✅ (disponível)"

/-- `listarAgendamentosDia(sender, data)`: the availability listing for the
given date (today when absent) against the passed appointment collection.
An unparsable date makes the slot loop vacuous (NaN bounds), yielding an
empty listing. -/
def listarAgendamentosDia (sender : String) (data : Option String) (now : Int)
    (agendamentos : List Agendamento) : String :=
  let hoje := data.getD (isoOfDays (now / 86400000))
  let rows := agendamentos.filter (fun a => a.data == hoje)
  let lines :=
    match isoParseDays hoje with
    | none => ([] : List String)
    | some z =>
      let dia := jsWeekday z
      let horaInicio : Int := if dia = 6 then 10 else 9
      let horaFim : Int := if dia = 6 then 16 else 20
      (slotTimes horaInicio horaFim).map
        (fun t => slotLine (sender == ADMIN_PHONE) rows (horaLabel t))
  strJoin "\n" lines ++ "\n\n" ++ mostrarMenu

/-- Whether `pat` occurs as a contiguous sublist of the second list. -/
def listIncl (pat : List Char) : List Char → Bool
  | [] => pat.isEmpty
  | c :: rest => pat.isPrefixOf (c :: rest) || listIncl pat rest

/-- `estilo.toLowerCase().includes(chave)`. -/
def strIncludes (s pat : String) : Bool := listIncl pat.toList s.toList

/-- `triagemEstilo(estilo, nome)`: first table entry whose key occurs in the
lowercased style, or the unrecognized-style message. -/
def triagemEstilo (estilo : String) : String :=
  match ESTILOS.find? (fun e => strIncludes (strToLower estilo) e.1) with
  | some (_, info) =>
    "Sugerimos o *" ++ info.sugestao ++ "* com o barbeiro " ++ info.barbeiro ++
      " (R$" ++ toString info.preco ++ "). 😎 Deseja agendar? Digite 1 para iniciar.\n\n" ++
      mostrarMenu
  | none =>
    "Estilo não identificado. Descreva novamente (ex.: cabelo curto, barba cheia).\n\n" ++
      mostrarMenu

/-- `[horaInicio, horaFim]` for the weekday of `new Date(data)` (ISO string
parse): Saturday (`getDay() === 6`) is 10..16, every other day — including
an unparsable date, whose NaN weekday is not 6 — is 9..20. -/
def horarioFuncionamento (data : String) : Int × Int :=
  if (isoParseDays data).map jsWeekday = some 6 then (10, 16) else (9, 20)

/-- The booking algorithm's business-hours test:
`horaNum < horaInicio || horaNum >= horaFim` with
`horaNum = parseInt(hora.split(":")[0])` (false when `horaNum` is NaN). -/
def horaForaExpediente (data hora : String) : Bool :=
  match jsParseInt ((strSplit ':' hora).headD "") with
  | some h => decide (h < (horarioFuncionamento data).1) || decide (h ≥ (horarioFuncionamento data).2)
  | none => false

/-- The booking algorithm's past test: `new Date(data + "T" + hora + ":00") < new Date()`
(false when the datetime is NaN). -/
def agendamentoNoPassado (data hora : String) (now : Int) : Bool :=
  match parseDataHoraMs data hora with
  | some t => decide (t < now)
  | none => false

/-- The requester's stored-appointment count (`countDocuments({sender})`) —
note: all stored appointments of the sender, with no date restriction. -/
def contagemDoSender (sender : String) (st : BotState) : Nat :=
  (st.agendamentos.filter (fun a => a.sender == sender)).length

/-- `findOne({data, hora})` non-emptiness: the slot-conflict test. -/
def horarioOcupado (data hora : String) (st : BotState) : Bool :=
  (st.agendamentos.find? (fun a => a.data == data && a.hora == hora)).isSome

/-- `agendarServico(nome, data, hora, sender, client)`: the booking
algorithm.  The three thrown validation errors are caught by the enclosing
`try` and rendered as `Erro: ... + listarHorarios(sender)`; the limit and
conflict rejections are plain returns; success inserts, notifies the admin,
sends the caller the day's listing and a confirmation, and arms the
suppression marker, replying `null`. -/
def agendarServico (nome data hora sender : String) (now : Int) (st : BotState) :
    Option String × BotState :=
  if ¬ validarHorario hora then
    let (prompt, st) := listarHorarios sender now st
    (some ("Erro: Horário inválido. Tente novamente.\n\n" ++ prompt), st)
  else if horaForaExpediente data hora then
    let (prompt, st) := listarHorarios sender now st
    (some ("Erro: Horário fora do expediente (" ++ toString (horarioFuncionamento data).1 ++
      "h às " ++ toString (horarioFuncionamento data).2 ++ "h). Tente novamente.\n\n" ++ prompt), st)
  else if agendamentoNoPassado data hora now then
    let (prompt, st) := listarHorarios sender now st
    (some ("Erro: Não é possível agendar no passado. Tente novamente.\n\n" ++ prompt), st)
  else if contagemDoSender sender st ≥ 3 then
    (some ("Você atingiu o limite de 3 agendamentos. Cancele um para agendar novamente.\n\n" ++
      mostrarMenu), st)
  else if horarioOcupado data hora st then
    let (prompt, st) := listarHorarios sender now st
    (some ("Horário já agendado. Escolha outro horário.\n\n" ++ prompt), st)
  else
    let st := { st with agendamentos :=
      st.agendamentos ++ [⟨nome, data, hora, sender, now⟩] }
    let st := notificarAdmin ("Novo agendamento: " ++ nome ++ ", " ++ data ++ ", " ++ hora) st
    let st := { st with enviadas :=
      st.enviadas ++ [(sender, listarAgendamentosDia sender (some data) now st.agendamentos)] }
    let st := { st with enviadas := st.enviadas ++ [(sender,
      "*Agendamento Confirmado! 🎉*\nNome: " ++ nome ++ "\nData: " ++ data ++
        "\nHora: " ++ hora ++ "\nEndereço: " ++ INFO_endereco ++
        "\n\nChegue 5 minutos antes! Qualquer dúvida, é só chamar.")] }
    (none, { st with ultimoAgendamento := some ⟨sender, now⟩ })

/-- `cancelarServico(nome, data, hora, client)`: exact-match lookup; when
found, `deleteOne` (first match), append a `Cancelamento` with reason
"Cancelado pelo usuário", notify the admin. -/
def cancelarServico (nome data hora : String) (now : Int) (st : BotState) :
    String × BotState :=
  match st.agendamentos.find? (fun a => a.nome == nome && a.data == data && a.hora == hora) with
  | none => ("Agendamento não encontrado.\n\n" ++ mostrarMenu, st)
  | some _ =>
    let st := { st with agendamentos :=
      st.agendamentos.eraseP (fun a => a.nome == nome && a.data == data && a.hora == hora) }
    let st := { st with cancelamentos :=
      st.cancelamentos ++ [⟨nome, data, hora, "Cancelado pelo usuário", now⟩] }
    let st := notificarAdmin ("Cancelamento: " ++ nome ++ ", " ++ data ++ ", " ++ hora) st
    ("Agendamento cancelado com sucesso.\n\n" ++ mostrarMenu, st)

/-- `coletarFeedback(nome, comentario, avaliacao)`: `avaliacao` arrives from
the caller's `parseInt`, so it is an integer or NaN (`none`).  The guard
`!Number.isInteger(parseInt(avaliacao)) || avaliacao < 1 || avaliacao > 5`
rejects NaN and out-of-range values; otherwise a Feedback is saved. -/
def coletarFeedback (nome comentario : String) (avaliacao : Option Int) (now : Int)
    (st : BotState) : String × BotState :=
  if (match avaliacao with
      | none => true
      | some n => decide (n < 1) || decide (n > 5)) then
    ("Avaliação inválida. Use um número de 1 a 5.\n\nFormato: feedback [nome] [comentario] [avaliação]\n\n" ++
      mostrarMenu, st)
  else
    let n := avaliacao.getD 0
    ("Valeu pelo feedback, irmão! 😎\n\n" ++ mostrarMenu,
     { st with feedbacks := st.feedbacks ++ [⟨nome, comentario, n, now⟩] })

/-- `gerarRelatorio(sender)`: admin-only summary of today-or-future
appointments and all cancellations (the CSV dumps go to the logger, which is
not modelled). -/
def gerarRelatorio (sender : String) (now : Int) (st : BotState) : String :=
  if sender ≠ ADMIN_PHONE then
    "Apenas o administrador pode acessar relatórios.\n\n" ++ mostrarMenu
  else
    let hoje := isoOfDays (now / 86400000)
    let ativos := st.agendamentos.filter (fun a => ¬ strLt a.data hoje)
    "Relatório: " ++ toString ativos.length ++ " agendamentos ativos, " ++
      toString st.cancelamentos.length ++ " cancelados.\n\n" ++ mostrarMenu

/-- `iniciarChatChocolate(sender, client)`. -/
def iniciarChatChocolate (sender : String) (now : Int) (st : BotState) :
    String × BotState :=
  ("O Chocolate foi solicitado, por favor, aguarde... ⏳\nDigite \x27sair\x27 a qualquer momento para finalizar o bate-papo e voltar ao menu.",
   { st with conversasChocolate := mapSet sender ⟨true, now⟩ st.conversasChocolate })

/-- `processarMensagemChocolate(mensagem, sender, client)`. -/
def processarMensagemChocolate (mensagem sender : String) (now : Int) (st : BotState) :
    Option String × BotState :=
  match st.conversasChocolate.lookup sender with
  | none => (none, st)
  | some conversa =>
    if ¬ conversa.ativo then (none, st)
    else if strTrim (strToLower mensagem) == "sair" then
      (some ("Bate-papo encerrado. Voltando ao menu.\n\n" ++ mostrarMenu),
       { st with conversasChocolate := mapDel sender st.conversasChocolate })
    else
      let conversas := mapSet sender { conversa with ultimoContato := now } st.conversasChocolate
      (none, { st with conversasChocolate := conversas })

/-- The portion of `processarMensagem` after the suppression-marker check:
side-conversation delegation, `sair`, menu redisplay, digit routing, step
processing, and the free-form commands, in source order. -/
def processarRoteamento (mensagem mensagemLower sender : String) (now : Int)
    (st : BotState) : Option String × BotState :=
  if (st.conversasChocolate.lookup sender).isSome then
    let (resposta, st) := processarMensagemChocolate mensagem sender now st
    (match resposta with
     | some r => (some r, st)
     | none => (none, st))
  else
    let estado := (st.estados.lookup sender).getD { ultimoContato := now }
    if mensagemLower == "sair" ∧ estado.etapa.isSome then
      (some mostrarMenu, { st with estados := mapDel sender st.estados })
    else if estado.etapa.isNone ∧
        ¬ (["1", "2", "3", "4", "5", "6", "7"].contains mensagem) ∧
        strStartsWith mensagemLower "triagem" = false ∧ strStartsWith mensagemLower "feedback" = false ∧
        strStartsWith mensagemLower "relatorio" = false then
      (some mostrarMenu, st)
    else if mensagem == "1" then
      (some "Digite a data do agendamento (DD/MM/YYYY) ou \x27sair\x27 para voltar ao menu:",
       { st with estados := mapSet sender { estado with etapa := some "data" } st.estados })
    else if mensagem == "2" then
      (some "Digite seu nome e o horário (ex.: Joao 09:00) ou \x27sair\x27 para voltar ao menu:",
       { st with estados := mapSet sender { estado with etapa := some "cancelar_nome_hora" } st.estados })
    else if mensagem == "3" then
      (some (listarAgendamentosDia sender none now st.agendamentos), st)
    else if mensagem == "4" then
      (some (INFO_horario ++ "\n\n" ++ mostrarMenu), st)
    else if mensagem == "5" then
      (some (INFO_endereco ++ "\n\n" ++ mostrarMenu), st)
    else if mensagem == "6" then
      let (r, st) := iniciarChatChocolate sender now st
      (some r, st)
    else if mensagem == "7" then
      (some "Bot encerrado. Até a próxima! 😎",
       { st with conversasChocolate := mapDel sender st.conversasChocolate,
                 estados := mapDel sender st.estados })
    else if estado.etapa = some "data" then
      if ¬ validarData mensagem then
        (some "Formato inválido. Use: DD/MM/YYYY (ex.: 25/12/2025)\n\nDigite novamente ou \x27sair\x27:", st)
      else
        match strSplit '/' mensagem with
        | [diaS, mesS, anoS] =>
          let dia := (jsParseInt diaS).getD 0
          let mes := (jsParseInt mesS).getD 0
          let ano := (jsParseInt anoS).getD 0
          let dataObj := jsDateCtorDays ano (mes - 1) dia
          let hoje := now / 86400000
          if dataObj < hoje then
            (some "A data deve ser hoje ou futura. Não é possível agendar no passado.\n\nDigite outra data (DD/MM/YYYY) ou \x27sair\x27:", st)
          else
            let dataIso := anoS ++ "-" ++ mesS ++ "-" ++ diaS
            let novo : Estado := { estado with data := some dataIso, etapa := some "horario" }
            let st := { st with estados := mapSet sender novo st.estados }
            let diaSemana := jsWeekday dataObj
            let horaInicio : Int := if diaSemana = 6 then 10 else 9
            let horaFim : Int := if diaSemana = 6 then 16 else 20
            let rows := st.agendamentos.filter (fun a => a.data == dataIso)
            let lines := (slotTimes horaInicio horaFim).map
              (fun t => slotLine (sender == ADMIN_PHONE) rows (horaLabel t))
            (some (strJoin "\n" lines ++
              "\n\nDigite o horário (ex.: 09:00) ou \x27sair\x27:"), st)
        | _ => (none, st)
    else if estado.etapa = some "horario" then
      if ¬ validarHorario mensagem then
        let (prompt, st) := listarHorarios sender now st
        (some ("Horário inválido. Use: HH:MM (ex.: 09:00)\n\n" ++ prompt), st)
      else
        let novo : Estado := { estado with hora := some mensagem, etapa := some "nome" }
        (some "Digite seu nome ou \x27sair\x27 para voltar ao menu:",
         { st with estados := mapSet sender novo st.estados })
    else if estado.etapa = some "nome" then
      let nome := mensagem
      let data := estado.data.getD "undefined"
      let hora := estado.hora.getD "undefined"
      let st := { st with estados := mapDel sender st.estados }
      agendarServico nome data hora sender now st
    else if estado.etapa = some "cancelar_nome_hora" then
      let partes := strSplit ' ' mensagem
      if partes.length ≥ 2 then
        let nome := (partes.get? 0).getD ""
        let hora := (partes.get? 1).getD ""
        if ¬ validarHorario hora then
          (some "Formato inválido. Use: [nome] [horário: HH:MM] (ex.: Joao 09:00) ou \x27sair\x27 para voltar ao menu:", st)
        else
          let data := isoOfDays (now / 86400000)
          let st := { st with estados := mapDel sender st.estados }
          let (r, st) := cancelarServico nome data hora now st
          (some r, st)
      else
        (some "Formato: [nome] [horário: HH:MM] (ex.: Joao 09:00) ou \x27sair\x27 para voltar ao menu:", st)
    else if estado.etapa = some "confirmar_presenca" then
      if mensagemLower == "sim" then
        (some ("Show! Te esperamos no horário. 😎\n\n" ++ mostrarMenu),
         { st with estados := mapDel sender st.estados })
      else if mensagemLower == "não" then
        let (nome, data, hora) := estado.agendamento.getD ("undefined", "undefined", "undefined")
        let st := { st with estados := mapDel sender st.estados }
        let (r, st) := cancelarServico nome data hora now st
        (some r, st)
      else
        (some "Responda \x27Sim\x27 ou \x27Não\x27 para confirmar sua presença.", st)
    else if strStartsWith mensagemLower "triagem" then
      let partes := strSplit ' ' mensagem
      if partes.length ≥ 3 then
        (some (triagemEstilo ((partes.get? 1).getD "")), st)
      else
        (some ("Formato: triagem [estilo] [nome]\n\n" ++ mostrarMenu), st)
    else if strStartsWith mensagemLower "feedback" then
      let partes := strSplit ' ' mensagem
      if partes.length ≥ 4 then
        let nome := (partes.get? 1).getD ""
        let avaliacao := jsParseInt (partes.getLast?.getD "")
        let comentario := strJoin " " ((partes.drop 2).dropLast)
        let (r, st) := coletarFeedback nome comentario avaliacao now st
        (some r, st)
      else
        (some ("Formato: feedback [nome] [comentario] [avaliação de 1 a 5]\n\n" ++ mostrarMenu), st)
    else if mensagemLower == "relatorio" then
      (some (gerarRelatorio sender now st), st)
    else
      (some mostrarMenu, st)

/-- `processarMensagem(mensagem, sender, client)`: reject non-`@c.us`
senders, touch the user's `ultimoContato`, apply the recently-booked
suppression marker, then route normally. -/
def processarMensagem (mensagem sender : String) (now : Int) (st : BotState) :
    Option String × BotState :=
  if strEndsWith sender "@c.us" = false then (none, st)
  else
    let (estado, st) := getEstado sender now st
    let st := { st with estados := mapSet sender { estado with ultimoContato := now } st.estados }
    let mensagemLower := strTrim (strToLower mensagem)
    match st.ultimoAgendamento with
    | some u =>
      if u.sender == sender && now - u.timestamp < 60000 then
        (some mostrarMenu, { st with ultimoAgendamento := none })
      else
        processarRoteamento mensagem mensagemLower sender now st
    | none => processarRoteamento mensagem mensagemLower sender now st

/-- The daily retention sweep (the `cron.schedule('0 0 * * *')` body):
`dataLimite = today - 30 days` (via `setDate(getDate() - 30)`, whose
`MakeDay` rollover is exactly day-number subtraction), then
`deleteMany({data: {$lt: dataLimiteStr}})` — a lexicographic string
comparison against the ISO rendering. -/
def limparAgendamentosAntigos (now : Int) (st : BotState) : BotState :=
  let dataLimiteStr := isoOfDays (now / 86400000 - 30)
  { st with agendamentos := st.agendamentos.filter (fun a => ¬ strLt a.data dataLimiteStr) }

/-- The conversation step currently stored for a sender. -/
def etapaDe (sender : String) (st : BotState) : Option String :=
  match st.estados.lookup sender with
  | some e => e.etapa
  | none => none

/-- The state after `processarMensagem`'s initial `getEstado` +
`estado.ultimoContato = Date.now()` for a `@c.us` sender. -/
def touchEstado (sender : String) (now : Int) (st : BotState) : BotState :=
  let estado := (st.estados.lookup sender).getD { ultimoContato := now }
  { st with estados := mapSet sender { estado with ultimoContato := now } st.estados }

/-- Two appointment records that may differ only in the client name. -/
def mesmaGrade (a b : Agendamento) : Prop :=
  a.data = b.data ∧ a.hora = b.hora ∧ a.sender = b.sender

theorem mapSet_mapSet {α : Type} (k : String) (v v' : α) (m : List (String × α)) :
    mapSet k v' (mapSet k v m) = mapSet k v' m := by
  induction m with
  | nil => simp [mapSet]
  | cons p rest ih =>
    by_cases h : p.1 = k
    · simp [mapSet, h]
    · simp [mapSet, h, ih]

theorem lookup_mapSet_self {α : Type} (k : String) (v : α) (m : List (String × α)) :
    (mapSet k v m).lookup k = some v := by
  induction m with
  | nil => simp [mapSet]
  | cons p rest ih =>
    by_cases h : p.1 = k
    · simp [mapSet, h, List.lookup]
    · have hbeq : (k == p.1) = false := by
        simp [BEq.beq]
        exact fun hk => h hk.symm
      simp [mapSet, h, List.lookup, hbeq, ih]

/-- C2. The spec asserts `validarData` accepts exactly the well-formed
`DD/MM/YYYY` strings denoting real calendar dates, rejecting "31/02/2025"
and "00/01/2025".  In the code the post-regex Date check is vacuous —
`new Date(ano, mes - 1, dia)` rolls out-of-range components over instead of
producing NaN — so both of those strings are accepted; only the regex
(shape) part ever rejects, as "aa/bb/cccc" does. -/
theorem validarData_aceita_datas_impossiveis :
    validarData "31/02/2025" = true ∧ validarData "00/01/2025" = true ∧
      validarData "aa/bb/cccc" = false ∧ validarData "25/12/2025" = true := by
  refine ⟨by decide, by decide, by decide, by decide⟩

/-- C10. A message whose sender does not end in `@c.us` is dropped:
`processarMensagem` replies `null` and leaves the whole state untouched
(no conversation state, no side-conversation session, no collection). -/
theorem processarMensagem_ignora_sender_invalido (mensagem sender : String) (now : Int)
    (st : BotState) (h : strEndsWith sender "@c.us" = false) :
    processarMensagem mensagem sender now st = (none, st) := by
  unfold processarMensagem
  simp [h]

/-- Witness for C10 at a concrete group-style sender and a nonempty state. -/
theorem processarMensagem_ignora_sender_invalido_witness :
    (strEndsWith "554@g.us" "@c.us" = false) ∧
      processarMensagem "1" "554@g.us" 5 { ultimoAgendamento := some ⟨"554@g.us", 0⟩ } =
        (none, { ultimoAgendamento := some ⟨"554@g.us", 0⟩ }) :=
  ⟨by decide, processarMensagem_ignora_sender_invalido "1" "554@g.us" 5 _ (by decide)⟩

/-- C9. The feedback collector rejects — invalid-rating message, state
untouched — exactly when the rating is NaN or outside 1..5; every integer
rating in 1..5 is persisted as a Feedback record with the thank-you reply. -/
theorem coletarFeedback_valida_avaliacao (nome comentario : String) (avaliacao : Option Int)
    (now : Int) (st : BotState) :
    ((coletarFeedback nome comentario avaliacao now st).1 =
        "Avaliação inválida. Use um número de 1 a 5.\n\nFormato: feedback [nome] [comentario] [avaliação]\n\n" ++
          mostrarMenu ↔
      ¬ ∃ n : Int, avaliacao = some n ∧ 1 ≤ n ∧ n ≤ 5) ∧
    ((¬ ∃ n : Int, avaliacao = some n ∧ 1 ≤ n ∧ n ≤ 5) →
      (coletarFeedback nome comentario avaliacao now st).2 = st) ∧
    (∀ n : Int, avaliacao = some n → 1 ≤ n → n ≤ 5 →
      coletarFeedback nome comentario avaliacao now st =
        ("Valeu pelo feedback, irmão! 😎\n\n" ++ mostrarMenu,
         { st with feedbacks := st.feedbacks ++ [⟨nome, comentario, n, now⟩] })) := by
  obtain _ | n := avaliacao
  · exact ⟨by simp [coletarFeedback], fun _ => by simp [coletarFeedback], fun n h => by simp at h⟩
  · by_cases hok : 1 ≤ n ∧ n ≤ 5
    · have hg : (match (some n : Option Int) with
          | none => true
          | some n => decide (n < 1) || decide (n > 5)) = false := by
        simp only []
        simp [decide_eq_false]
        omega
      have hres : coletarFeedback nome comentario (some n) now st =
          ("Valeu pelo feedback, irmão! 😎\n\n" ++ mostrarMenu,
           { st with feedbacks := st.feedbacks ++ [⟨nome, comentario, n, now⟩] }) := by
        unfold coletarFeedback
        rw [hg]
        simp [Option.getD]
      have hval : ∃ m : Int, (some n : Option Int) = some m ∧ 1 ≤ m ∧ m ≤ 5 :=
        ⟨n, rfl, hok.1, hok.2⟩
      have hres1 : (coletarFeedback nome comentario (some n) now st).1 =
          "Valeu pelo feedback, irmão! 😎\n\n" ++ mostrarMenu := by rw [hres]
      refine ⟨?_, fun hc => absurd hval hc, fun m hm hge hle => ?_⟩
      · rw [hres1]
        exact ⟨fun hstr => absurd hstr (by decide), fun hc => absurd hval hc⟩
      · obtain rfl := Option.some.inj hm
        exact hres
    · have hg : (match (some n : Option Int) with
          | none => true
          | some n => decide (n < 1) || decide (n > 5)) = true := by
        simp only []
        rcases (by omega : n < 1 ∨ n > 5) with h | h <;> simp [h]
      have hres : coletarFeedback nome comentario (some n) now st =
          ("Avaliação inválida. Use um número de 1 a 5.\n\nFormato: feedback [nome] [comentario] [avaliação]\n\n" ++
            mostrarMenu, st) := by
        unfold coletarFeedback
        rw [hg]
        simp
      have hnoval : ¬ ∃ m : Int, (some n : Option Int) = some m ∧ 1 ≤ m ∧ m ≤ 5 := by
        rintro ⟨m, hm, hge, hle⟩
        obtain rfl := Option.some.inj hm
        exact hok ⟨hge, hle⟩
      have hres1 : (coletarFeedback nome comentario (some n) now st).1 =
          "Avaliação inválida. Use um número de 1 a 5.\n\nFormato: feedback [nome] [comentario] [avaliação]\n\n" ++
            mostrarMenu := by rw [hres]
      have hres2 : (coletarFeedback nome comentario (some n) now st).2 = st := by rw [hres]
      refine ⟨?_, fun _ => hres2, fun m hm hge hle => ?_⟩
      · rw [hres1]
        simpa using hnoval
      · obtain rfl := Option.some.inj hm
        exact absurd ⟨hge, hle⟩ hok

/-- Witness for C9: a rating of 4 is persisted with the thank-you reply. -/
theorem coletarFeedback_valida_avaliacao_witness :
    coletarFeedback "Ana" "otimo corte" (some 4) 7 {} =
      ("Valeu pelo feedback, irmão! 😎\n\n" ++ mostrarMenu,
       { feedbacks := [⟨"Ana", "otimo corte", 4, 7⟩] }) :=
  (coletarFeedback_valida_avaliacao "Ana" "otimo corte" (some 4) 7 {}).2.2 4 rfl
    (by decide) (by decide)

/-- C5. Cancellation with no exactly-matching (nome, data, hora) appointment
replies not-found and changes nothing; with a match it deletes one matching
appointment (exact, case-sensitive string equality), appends a Cancelamento
with reason "Cancelado pelo usuário", notifies the admin, and replies
success + menu, leaving every other collection untouched. -/
theorem cancelarServico_spec (nome data hora : String) (now : Int) (st : BotState) :
    (st.agendamentos.find? (fun a => a.nome == nome && a.data == data && a.hora == hora) = none →
      cancelarServico nome data hora now st =
        ("Agendamento não encontrado.\n\n" ++ mostrarMenu, st)) ∧
    (∀ a, st.agendamentos.find? (fun a => a.nome == nome && a.data == data && a.hora == hora) =
        some a →
      a ∈ st.agendamentos ∧ a.nome = nome ∧ a.data = data ∧ a.hora = hora ∧
      cancelarServico nome data hora now st =
        ("Agendamento cancelado com sucesso.\n\n" ++ mostrarMenu,
         { st with
            agendamentos :=
              st.agendamentos.eraseP (fun a => a.nome == nome && a.data == data && a.hora == hora),
            cancelamentos := st.cancelamentos ++ [⟨nome, data, hora, "Cancelado pelo usuário", now⟩],
            enviadas := st.enviadas ++
              [(ADMIN_PHONE, "Cancelamento: " ++ nome ++ ", " ++ data ++ ", " ++ hora)] }) ∧
      (cancelarServico nome data hora now st).2.agendamentos.length =
        st.agendamentos.length - 1) := by
  constructor
  · intro hnone
    unfold cancelarServico
    rw [hnone]
  · intro a hsome
    have hmem : a ∈ st.agendamentos := List.mem_of_find?_eq_some hsome
    have hp := List.find?_some hsome
    have heq : (a.nome = nome ∧ a.data = data) ∧ a.hora = hora := by
      simpa using hp
    have hres : cancelarServico nome data hora now st =
        ("Agendamento cancelado com sucesso.\n\n" ++ mostrarMenu,
         { st with
            agendamentos :=
              st.agendamentos.eraseP (fun a => a.nome == nome && a.data == data && a.hora == hora),
            cancelamentos := st.cancelamentos ++ [⟨nome, data, hora, "Cancelado pelo usuário", now⟩],
            enviadas := st.enviadas ++
              [(ADMIN_PHONE, "Cancelamento: " ++ nome ++ ", " ++ data ++ ", " ++ hora)] }) := by
      unfold cancelarServico
      rw [hsome]
      simp [notificarAdmin]
    refine ⟨hmem, heq.1.1, heq.1.2, heq.2, hres, ?_⟩
    rw [hres]
    exact List.length_eraseP_of_mem hmem hp

set_option maxRecDepth 10000 in
/-- Witness for C5: cancelling the only stored appointment deletes it,
records the cancellation, and notifies the admin. -/
theorem cancelarServico_spec_witness :
    cancelarServico "Ana" "2025-12-22" "09:00" 9
        { agendamentos := [⟨"Ana", "2025-12-22", "09:00", "a@c.us", 0⟩] } =
      ("Agendamento cancelado com sucesso.\n\n" ++ mostrarMenu,
       { agendamentos := [],
         cancelamentos := [⟨"Ana", "2025-12-22", "09:00", "Cancelado pelo usuário", 9⟩],
         enviadas := [(ADMIN_PHONE, "Cancelamento: Ana, 2025-12-22, 09:00")] }) := by
  have h := ((cancelarServico_spec "Ana" "2025-12-22" "09:00" 9
      { agendamentos := [⟨"Ana", "2025-12-22", "09:00", "a@c.us", 0⟩] }).2
    ⟨"Ana", "2025-12-22", "09:00", "a@c.us", 0⟩ (by decide)).2.2.2.2.1
  rw [h]
  decide

theorem listarHorarios_spec (sender : String) (now : Int) (st : BotState) :
    (listarHorarios sender now st).1 =
      "Digite a data do agendamento (DD/MM/YYYY) ou \x27sair\x27 para voltar ao menu:" ∧
    etapaDe sender (listarHorarios sender now st).2 = some "data" ∧
    (listarHorarios sender now st).2.agendamentos = st.agendamentos ∧
    (listarHorarios sender now st).2.feedbacks = st.feedbacks ∧
    (listarHorarios sender now st).2.cancelamentos = st.cancelamentos ∧
    (listarHorarios sender now st).2.conversasChocolate = st.conversasChocolate ∧
    (listarHorarios sender now st).2.ultimoAgendamento = st.ultimoAgendamento ∧
    (listarHorarios sender now st).2.enviadas = st.enviadas := by
  unfold listarHorarios getEstado etapaDe
  cases h : st.estados.lookup sender with
  | none => simp [h, mapSet_mapSet, lookup_mapSet_self]
  | some e => simp [h, lookup_mapSet_self]

set_option maxRecDepth 100000 in
/-- C3 counterexample. A requester holding three appointments all dated in
the distant past — so with zero active (today-or-future) appointments — is
still rejected with the limit-reached message on a valid future booking:
the code's `countDocuments({sender})` counts every stored appointment, not
the active ones, so the claim's "active-appointment count" reading fails. -/
theorem agendarServico_limite_conta_passados :
    (let st : BotState :=
      { agendamentos := [⟨"A", "2020-01-01", "09:00", "a@c.us", 0⟩,
                         ⟨"B", "2020-01-01", "10:00", "a@c.us", 0⟩,
                         ⟨"C", "2020-01-01", "11:00", "a@c.us", 0⟩] }
     let now : Int := 1767225600000
     (st.agendamentos.filter
        (fun a => a.sender == "a@c.us" && ¬ strLt a.data (isoOfDays (now / 86400000)))).length = 0 ∧
       (agendarServico "Joao" "2026-06-01" "10:00" "a@c.us" now st).1 =
         some ("Você atingiu o limite de 3 agendamentos. Cancele um para agendar novamente.\n\n" ++
           mostrarMenu) ∧
       (agendarServico "Joao" "2026-06-01" "10:00" "a@c.us" now st).2 = st) := by
  decide

/-- C3 (amended). Provided the time is well-formed, within business hours
and not in the past, the booking algorithm rejects with the limit-reached
message exactly when the requester's stored-appointment count — all stored
appointments of that sender, past-dated ones included — is 3 or more; on
that rejection nothing is persisted, no step is re-armed, and the reply is
the limit message followed by the menu. -/
theorem agendarServico_limite (nome data hora sender : String) (now : Int) (st : BotState)
    (h1 : validarHorario hora = true)
    (h2 : horaForaExpediente data hora = false)
    (h3 : agendamentoNoPassado data hora now = false) :
    ((agendarServico nome data hora sender now st).1 =
        some ("Você atingiu o limite de 3 agendamentos. Cancele um para agendar novamente.\n\n" ++
          mostrarMenu) ↔
      3 ≤ contagemDoSender sender st) ∧
    (3 ≤ contagemDoSender sender st →
      agendarServico nome data hora sender now st =
        (some ("Você atingiu o limite de 3 agendamentos. Cancele um para agendar novamente.\n\n" ++
          mostrarMenu), st)) := by
  unfold agendarServico
  rw [h1, h2, h3]
  simp only [Bool.false_eq_true, not_true_eq_false, if_false, ite_false]
  by_cases hlim : 3 ≤ contagemDoSender sender st
  · have hge : contagemDoSender sender st ≥ 3 := hlim
    simp [hge, hlim]
  · have hlt : ¬ contagemDoSender sender st ≥ 3 := hlim
    simp only [hlt, if_false, ite_false]
    by_cases hocc : horarioOcupado data hora st = true
    · simp only [hocc, if_true, ite_true]
      rw [(listarHorarios_spec sender now st).1]
      have hne : "Horário já agendado. Escolha outro horário.\n\nDigite a data do agendamento (DD/MM/YYYY) ou \x27sair\x27 para voltar ao menu:" ≠
          "Você atingiu o limite de 3 agendamentos. Cancele um para agendar novamente.\n\n" ++
          mostrarMenu := by decide
      simp [hne, hlim]
    · simp only [Bool.not_eq_true] at hocc
      simp [hocc, hlim]

set_option maxRecDepth 10000 in
/-- Witness for C3 (amended): a fourth booking by a requester with three
stored appointments is rejected with the limit message and no state change. -/
theorem agendarServico_limite_witness :
    agendarServico "Joao" "2026-06-01" "10:00" "a@c.us" 1767225600000
        { agendamentos := [⟨"A", "2026-06-02", "09:00", "a@c.us", 0⟩,
                           ⟨"B", "2026-06-02", "10:00", "a@c.us", 0⟩,
                           ⟨"C", "2026-06-02", "11:00", "a@c.us", 0⟩] } =
      (some ("Você atingiu o limite de 3 agendamentos. Cancele um para agendar novamente.\n\n" ++
        mostrarMenu),
       { agendamentos := [⟨"A", "2026-06-02", "09:00", "a@c.us", 0⟩,
                          ⟨"B", "2026-06-02", "10:00", "a@c.us", 0⟩,
                          ⟨"C", "2026-06-02", "11:00", "a@c.us", 0⟩] }) :=
  (agendarServico_limite "Joao" "2026-06-01" "10:00" "a@c.us" 1767225600000 _
    (by decide) (by decide) (by decide)).2 (by decide)

set_option maxRecDepth 10000 in
/-- C4 counterexample. A well-formed time outside business hours (08:00 on a
Monday) is rejected, but the reply re-prompts for the DATE — the function
named `listarHorarios` returns the date-entry prompt and sets the step to
"data" — not for a time selection: the reply does not contain the time
prompt ("Digite o horário"), refuting the claim's "re-prompt for time
selection". -/
theorem agendarServico_fora_expediente_reenvia_data :
    (let r := agendarServico "Joao" "2025-12-22" "08:00" "a@c.us" 0 {}
     r.1 = some "Erro: Horário fora do expediente (9h às 20h). Tente novamente.\n\nDigite a data do agendamento (DD/MM/YYYY) ou \x27sair\x27 para voltar ao menu:" ∧
       etapaDe "a@c.us" r.2 = some "data" ∧
       r.2.agendamentos = [] ∧
       strIncludes ((r.1).getD "") "Digite o horário" = false) := by
  decide

/-- C4 (amended). For every booking whose time is well-formed but outside
that weekday's business hours, nothing is persisted and the reply is the
out-of-hours error followed by the DATE-entry prompt, with the requester's
conversation step set back to date entry (not time selection). -/
theorem agendarServico_fora_expediente (nome data hora sender : String) (now : Int)
    (st : BotState) (h1 : validarHorario hora = true)
    (h2 : horaForaExpediente data hora = true) :
    agendarServico nome data hora sender now st =
      (some ("Erro: Horário fora do expediente (" ++ toString (horarioFuncionamento data).1 ++
        "h às " ++ toString (horarioFuncionamento data).2 ++ "h). Tente novamente.\n\n" ++
        "Digite a data do agendamento (DD/MM/YYYY) ou \x27sair\x27 para voltar ao menu:"),
       (listarHorarios sender now st).2) ∧
    (agendarServico nome data hora sender now st).2.agendamentos = st.agendamentos ∧
    etapaDe sender (agendarServico nome data hora sender now st).2 = some "data" := by
  have hbody : agendarServico nome data hora sender now st =
      (some ("Erro: Horário fora do expediente (" ++ toString (horarioFuncionamento data).1 ++
        "h às " ++ toString (horarioFuncionamento data).2 ++ "h). Tente novamente.\n\n" ++
        (listarHorarios sender now st).1), (listarHorarios sender now st).2) := by
    unfold agendarServico
    rw [h1, h2]
    simp
  refine ⟨?_, ?_, ?_⟩
  · rw [hbody, (listarHorarios_spec sender now st).1]
  · rw [hbody]
    exact (listarHorarios_spec sender now st).2.2.1
  · rw [hbody]
    exact (listarHorarios_spec sender now st).2.1

set_option maxRecDepth 10000 in
/-- Witness for C4 (amended): Saturday hours are 10..16, so 09:00 on a
Saturday is out of hours and yields the error plus the date prompt. -/
theorem agendarServico_fora_expediente_witness :
    agendarServico "Joao" "2025-12-20" "09:00" "b@c.us" 0 { } =
      (some ("Erro: Horário fora do expediente (" ++
        toString (horarioFuncionamento "2025-12-20").1 ++ "h às " ++
        toString (horarioFuncionamento "2025-12-20").2 ++ "h). Tente novamente.\n\n" ++
        "Digite a data do agendamento (DD/MM/YYYY) ou \x27sair\x27 para voltar ao menu:"),
       (listarHorarios "b@c.us" 0 { }).2) :=
  (agendarServico_fora_expediente "Joao" "2025-12-20" "09:00" "b@c.us" 0 { }
    (by decide) (by decide)).1

theorem find?_append_none {α : Type} (p : α → Bool) (l1 l2 : List α)
    (h : l1.find? p = none) : (l1 ++ l2).find? p = l2.find? p := by
  induction l1 with
  | nil => simp
  | cons a l ih =>
    cases hpa : p a with
    | true => simp [List.find?_cons, hpa] at h
    | false =>
      simp only [List.find?_cons, hpa] at h
      simp only [List.cons_append, List.find?_cons, hpa]
      exact ih h

theorem agendarServico_sucesso (nome data hora sender : String) (now : Int) (st : BotState)
    (h1 : validarHorario hora = true) (h2 : horaForaExpediente data hora = false)
    (h3 : agendamentoNoPassado data hora now = false)
    (h4 : contagemDoSender sender st < 3)
    (h5 : horarioOcupado data hora st = false) :
    (agendarServico nome data hora sender now st).1 = none ∧
    (agendarServico nome data hora sender now st).2.agendamentos =
      st.agendamentos ++ [⟨nome, data, hora, sender, now⟩] ∧
    (agendarServico nome data hora sender now st).2.ultimoAgendamento = some ⟨sender, now⟩ ∧
    (agendarServico nome data hora sender now st).2.estados = st.estados := by
  have h4' : ¬ contagemDoSender sender st ≥ 3 := by omega
  unfold agendarServico
  rw [h1, h2, h3]
  simp [h4', h5, notificarAdmin]

set_option maxRecDepth 100000 in
/-- C1 counterexample. With the (date, time) slot already occupied in the
initial database state, two subsequent booking requests from two different
requesters BOTH receive the conflict message and NEITHER succeeds — so "for
every database state ... exactly one booking succeeds" is false as stated
(zero succeed here). -/
theorem agendarServico_corrida_slot_ja_ocupado :
    (let st0 : BotState := { agendamentos := [⟨"X", "2030-01-07", "09:00", "x@c.us", 0⟩] }
     let r1 := agendarServico "A" "2030-01-07" "09:00" "a@c.us" 0 st0
     let r2 := agendarServico "B" "2030-01-07" "09:00" "b@c.us" 0 r1.2
     r1.1 = some ("Horário já agendado. Escolha outro horário.\n\nDigite a data do agendamento (DD/MM/YYYY) ou \x27sair\x27 para voltar ao menu:") ∧
       r2.1 = some ("Horário já agendado. Escolha outro horário.\n\nDigite a data do agendamento (DD/MM/YYYY) ou \x27sair\x27 para voltar ao menu:") ∧
       r2.2.agendamentos = st0.agendamentos) := by
  decide

/-- C1 (amended). From any database state in which the (data, hora) slot is
free and both requesters pass the time/hours/past/limit checks, processing
the two bookings one after the other yields: the first succeeds (null
reply, exactly its Appointment appended), the second receives the conflict
message, is returned to date entry, and appends nothing — the slot ends up
holding exactly the first requester's single Appointment. -/
theorem agendarServico_corrida (nome1 nome2 data hora sender1 sender2 : String)
    (now1 now2 : Int) (st : BotState)
    (hss : sender1 ≠ sender2)
    (h1 : validarHorario hora = true)
    (h2 : horaForaExpediente data hora = false)
    (h3a : agendamentoNoPassado data hora now1 = false)
    (h3b : agendamentoNoPassado data hora now2 = false)
    (h4a : contagemDoSender sender1 st < 3)
    (h4b : contagemDoSender sender2 st < 3)
    (h5 : horarioOcupado data hora st = false) :
    (agendarServico nome1 data hora sender1 now1 st).1 = none ∧
    (agendarServico nome1 data hora sender1 now1 st).2.agendamentos =
      st.agendamentos ++ [⟨nome1, data, hora, sender1, now1⟩] ∧
    (agendarServico nome2 data hora sender2 now2
        (agendarServico nome1 data hora sender1 now1 st).2).1 =
      some ("Horário já agendado. Escolha outro horário.\n\nDigite a data do agendamento (DD/MM/YYYY) ou \x27sair\x27 para voltar ao menu:") ∧
    (agendarServico nome2 data hora sender2 now2
        (agendarServico nome1 data hora sender1 now1 st).2).2.agendamentos =
      (agendarServico nome1 data hora sender1 now1 st).2.agendamentos ∧
    etapaDe sender2 (agendarServico nome2 data hora sender2 now2
        (agendarServico nome1 data hora sender1 now1 st).2).2 = some "data" ∧
    ((agendarServico nome2 data hora sender2 now2
        (agendarServico nome1 data hora sender1 now1 st).2).2.agendamentos.filter
      (fun a => a.data == data && a.hora == hora)) = [⟨nome1, data, hora, sender1, now1⟩] := by
  obtain ⟨hr1, hag1, hua1, hes1⟩ :=
    agendarServico_sucesso nome1 data hora sender1 now1 st h1 h2 h3a h4a h5
  set st1 := (agendarServico nome1 data hora sender1 now1 st).2 with hst1
  have hcount2 : contagemDoSender sender2 st1 < 3 := by
    unfold contagemDoSender at h4b ⊢
    rw [hag1, List.filter_append]
    have : (sender1 == sender2) = false := by
      simp only [beq_eq_false_iff_ne, ne_eq]
      exact hss
    simp [this]
    omega
  have h5n : st.agendamentos.find? (fun a => a.data == data && a.hora == hora) = none := by
    cases hfind : st.agendamentos.find? (fun a => a.data == data && a.hora == hora) with
    | none => rfl
    | some a =>
      unfold horarioOcupado at h5
      rw [hfind] at h5
      simp at h5
  have hocc2 : horarioOcupado data hora st1 = true := by
    unfold horarioOcupado
    rw [hag1, find?_append_none _ _ _ h5n]
    simp [List.find?_cons]
  have hnil : st.agendamentos.filter (fun a => a.data == data && a.hora == hora) = [] := by
    rw [List.find?_eq_none] at h5n
    rw [List.filter_eq_nil_iff]
    exact h5n
  have hbody2 : agendarServico nome2 data hora sender2 now2 st1 =
      (some ("Horário já agendado. Escolha outro horário.\n\n" ++
        (listarHorarios sender2 now2 st1).1), (listarHorarios sender2 now2 st1).2) := by
    have h4' : ¬ contagemDoSender sender2 st1 ≥ 3 := by omega
    unfold agendarServico
    rw [h1, h2, h3b]
    simp [h4', hocc2]
  refine ⟨hr1, hag1, ?_, ?_, ?_, ?_⟩
  · rw [hbody2, (listarHorarios_spec sender2 now2 st1).1]
    rfl
  · rw [hbody2]
    exact (listarHorarios_spec sender2 now2 st1).2.2.1
  · rw [hbody2]
    exact (listarHorarios_spec sender2 now2 st1).2.1
  · rw [hbody2]
    rw [(listarHorarios_spec sender2 now2 st1).2.2.1, hag1, List.filter_append, hnil]
    simp

set_option maxRecDepth 100000 in
/-- Witness for C1 (amended): on an empty database, requester a books the
Monday 09:00 slot and requester b then gets the conflict message. -/
theorem agendarServico_corrida_witness :
    (agendarServico "A" "2030-01-07" "09:00" "a@c.us" 0 {}).1 = none ∧
    (agendarServico "B" "2030-01-07" "09:00" "b@c.us" 0
        (agendarServico "A" "2030-01-07" "09:00" "a@c.us" 0 {}).2).1 =
      some ("Horário já agendado. Escolha outro horário.\n\nDigite a data do agendamento (DD/MM/YYYY) ou \x27sair\x27 para voltar ao menu:") := by
  obtain ⟨w1, -, w2, -⟩ :=
    agendarServico_corrida "A" "B" "2030-01-07" "09:00" "a@c.us" "b@c.us" 0 0 {}
      (by decide) (by decide) (by decide) (by decide) (by decide) (by decide) (by decide)
      (by decide)
  exact ⟨w1, w2⟩

theorem processarMensagem_valido (mensagem sender : String) (now : Int) (st : BotState)
    (hc : strEndsWith sender "@c.us" = true) :
    processarMensagem mensagem sender now st =
      (match st.ultimoAgendamento with
       | some u =>
         if u.sender == sender && now - u.timestamp < 60000 then
           (some mostrarMenu, { touchEstado sender now st with ultimoAgendamento := none })
         else
           processarRoteamento mensagem (strTrim (strToLower mensagem)) sender now
             (touchEstado sender now st)
       | none =>
         processarRoteamento mensagem (strTrim (strToLower mensagem)) sender now
           (touchEstado sender now st)) := by
  unfold processarMensagem getEstado touchEstado
  rw [hc]
  cases hl : st.estados.lookup sender <;> cases hu : st.ultimoAgendamento <;>
    simp [hl, hu, mapSet_mapSet]

/-- C6. After a successful booking arms the process-wide marker
{sender, timestamp}: (i) the next `@c.us` message from that same sender
within 60 seconds is answered with a bare menu redisplay, the only state
changes being the `ultimoContato` touch and the marker being cleared — so a
second message is routed normally; (ii) a message from a different sender
is routed normally (the suppression branch is not applied); (iii) with no
marker, routing is normal. -/
theorem processarMensagem_marcador (mensagem sender : String) (now : Int) (st : BotState)
    (u : UltimoAgendamento) (hc : strEndsWith sender "@c.us" = true) :
    (st.ultimoAgendamento = some u → u.sender = sender → now - u.timestamp < 60000 →
      processarMensagem mensagem sender now st =
        (some mostrarMenu, { touchEstado sender now st with ultimoAgendamento := none })) ∧
    (st.ultimoAgendamento = some u → u.sender ≠ sender →
      processarMensagem mensagem sender now st =
        processarRoteamento mensagem (strTrim (strToLower mensagem)) sender now
          (touchEstado sender now st)) ∧
    (st.ultimoAgendamento = none →
      processarMensagem mensagem sender now st =
        processarRoteamento mensagem (strTrim (strToLower mensagem)) sender now
          (touchEstado sender now st)) := by
  rw [processarMensagem_valido mensagem sender now st hc]
  refine ⟨fun hu hs ht => ?_, fun hu hs => ?_, fun hu => ?_⟩
  · rw [hu]
    simp [hs, ht]
  · rw [hu]
    have hb : (u.sender == sender) = false := by
      simp only [beq_eq_false_iff_ne, ne_eq]
      exact hs
    simp [hb]
  · rw [hu]

set_option maxRecDepth 10000 in
/-- Witness for C6: a marker armed 500 ms ago suppresses the next message of
the same sender into a bare menu, clearing the marker; the same message from
another sender is routed normally (here: menu redisplay with the marker kept
and no suppression branch taken). -/
theorem processarMensagem_marcador_witness :
    processarMensagem "oi" "a@c.us" 1000 { ultimoAgendamento := some ⟨"a@c.us", 500⟩ } =
      (some mostrarMenu,
       { estados := [("a@c.us", { ultimoContato := 1000 })], ultimoAgendamento := none }) := by
  have h := (processarMensagem_marcador "oi" "a@c.us" 1000
      { ultimoAgendamento := some ⟨"a@c.us", 500⟩ } ⟨"a@c.us", 500⟩ (by decide)).1
    rfl rfl (by decide)
  rw [h]
  decide

theorem strAppend_assoc (a b c : String) : a ++ b ++ c = a ++ (b ++ c) := by
  rcases a with ⟨la⟩
  rcases b with ⟨lb⟩
  rcases c with ⟨lc⟩
  show String.mk ((la ++ lb) ++ lc) = String.mk (la ++ (lb ++ lc))
  rw [List.append_assoc]

theorem slotLine_nao_admin (rows : List Agendamento) (hl : String) :
    slotLine false rows hl =
      if (rows.find? (fun a => a.hora == hl)).isSome then hl ++ " ⏰ (agendado)"
      else hl ++ " ✅ (disponível)" := by
  unfold slotLine
  cases h : rows.find? (fun a => a.hora == hl)
  · simp [h]
  · simp [h]
    rw [strAppend_assoc, show (" ⏰ (agendado" ++ ")" : String) = " ⏰ (agendado)" from by decide]

theorem forall2_find?_isSome (rows rows' : List Agendamento) (hl : String)
    (h : List.Forall₂ mesmaGrade rows rows') :
    (rows.find? (fun a => a.hora == hl)).isSome =
      (rows'.find? (fun a => a.hora == hl)).isSome := by
  induction h with
  | nil => rfl
  | cons hab htail ih =>
    obtain ⟨-, hh, -⟩ := hab
    rw [List.find?_cons, List.find?_cons, hh]
    cases hcond : (_ == hl) <;> simp [hcond, ih]

theorem forall2_filter_data (appts appts' : List Agendamento) (hoje : String)
    (h : List.Forall₂ mesmaGrade appts appts') :
    List.Forall₂ mesmaGrade (appts.filter (fun a => a.data == hoje))
      (appts'.filter (fun a => a.data == hoje)) := by
  induction h with
  | nil => exact List.Forall₂.nil
  | cons hab htail ih =>
    obtain ⟨hd, hh, hs⟩ := hab
    rw [List.filter_cons, List.filter_cons, hd]
    cases hcond : (_ == hoje)
    · simpa [hcond] using ih
    · simp only [hcond, ite_true, if_true]
      exact List.Forall₂.cons ⟨hd, hh, hs⟩ ih

/-- C7. The availability listing shown to a non-admin caller is identical
for any two appointment collections that agree slot-for-slot up to the
client names (so it reveals no occupant name), while for the admin identity
each booked slot's line carries the first matching occupant's name. -/
theorem listarAgendamentosDia_privacidade :
    (∀ (sender : String) (dataOpt : Option String) (now : Int)
        (appts appts' : List Agendamento),
      sender ≠ ADMIN_PHONE → List.Forall₂ mesmaGrade appts appts' →
      listarAgendamentosDia sender dataOpt now appts =
        listarAgendamentosDia sender dataOpt now appts') ∧
    (∀ (rows : List Agendamento) (hl : String) (a : Agendamento),
      rows.find? (fun x => x.hora == hl) = some a →
      slotLine true rows hl = hl ++ " ⏰ (agendado - " ++ a.nome ++ ")") := by
  constructor
  · intro sender dataOpt now appts appts' hadmin hrel
    unfold listarAgendamentosDia
    have hb : (sender == ADMIN_PHONE) = false := by
      simp only [beq_eq_false_iff_ne, ne_eq]
      exact hadmin
    rw [hb]
    have hrows := forall2_filter_data appts appts'
      (dataOpt.getD (isoOfDays (now / 86400000))) hrel
    cases hp : isoParseDays (dataOpt.getD (isoOfDays (now / 86400000))) with
    | none => simp [hp]
    | some z =>
      simp only [hp]
      refine congrArg (fun l => strJoin "\n" l ++ "\n\n" ++ mostrarMenu) ?_
      apply List.map_congr_left
      intro t _
      rw [slotLine_nao_admin, slotLine_nao_admin,
        forall2_find?_isSome _ _ (horaLabel t) hrows]
  · intro rows hl a hfind
    have key : ∀ X : String, (" ⏰ (agendado" : String) ++ (" - " ++ X) =
        " ⏰ (agendado - " ++ X := by
      intro X
      rw [← strAppend_assoc]
      rw [show ((" ⏰ (agendado" ++ " - ") : String) = " ⏰ (agendado - " from by decide]
    unfold slotLine
    rw [hfind]
    simp only [if_true, ite_true, strAppend_assoc]
    rw [key]

set_option maxRecDepth 10000 in
/-- Witness for C7: two stores whose only booked slot differs in the client
name produce identical listings for a non-admin caller. -/
theorem listarAgendamentosDia_privacidade_witness :
    listarAgendamentosDia "x@c.us" (some "2025-12-22") 0
        [⟨"Ana", "2025-12-22", "09:30", "a@c.us", 0⟩] =
      listarAgendamentosDia "x@c.us" (some "2025-12-22") 0
        [⟨"Bob", "2025-12-22", "09:30", "a@c.us", 0⟩] :=
  listarAgendamentosDia_privacidade.1 "x@c.us" (some "2025-12-22") 0 _ _ (by decide)
    (List.Forall₂.cons ⟨rfl, rfl, rfl⟩ List.Forall₂.nil)

/- Calendar and ISO-string ordering lemmas supporting the retention sweep. -/

set_option maxHeartbeats 4000000 in
theorem civilFromDays_doy_aux (doe q1 q2 q3 yoe : Int)
    (hdoe0 : 0 ≤ doe) (hdoe1 : doe < 146097)
    (hq1 : q1 = doe / 1460) (hq2 : q2 = doe / 36524) (hq3 : q3 = doe / 146096)
    (hyoe : yoe = (doe - q1 + q2 - q3) / 365) :
    0 ≤ doe - (365 * yoe + yoe / 4 - yoe / 100) ∧
      doe - (365 * yoe + yoe / 4 - yoe / 100) ≤ 365 := by
  have h0 : 0 ≤ yoe := by omega
  have h1 : yoe ≤ 399 := by omega
  interval_cases yoe <;> omega

theorem civilFromDays_summary (z0 za ea da q1 q2 q3 ya f4 f100 doya mpa qda : Int)
    (hza : za = z0 + 719468) (hea : ea = za / 146097) (hda : da = za - ea * 146097)
    (hq1 : q1 = da / 1460) (hq2 : q2 = da / 36524) (hq3 : q3 = da / 146096)
    (hya : ya = (da - q1 + q2 - q3) / 365)
    (hf4 : f4 = ya / 4) (hf100 : f100 = ya / 100)
    (hdoya : doya = da - (365 * ya + f4 - f100))
    (hmpa : mpa = (5 * doya + 2) / 153) (hqda : qda = (153 * mpa + 2) / 5) :
    (za = ea * 146097 + da ∧ 0 ≤ da ∧ da < 146097) ∧
    (0 ≤ ya ∧ ya ≤ 399) ∧
    (4 * f4 ≤ ya ∧ ya < 4 * f4 + 4) ∧
    (100 * f100 ≤ ya ∧ ya < 100 * f100 + 100) ∧
    (0 ≤ doya ∧ doya ≤ 365) ∧
    (153 * mpa ≤ 5 * doya + 2 ∧ 5 * doya + 2 < 153 * mpa + 153) ∧
    (5 * qda ≤ 153 * mpa + 2 ∧ 153 * mpa + 2 < 5 * qda + 5) ∧
    (0 ≤ mpa ∧ mpa ≤ 11) := by
  have hdoe0 : 0 ≤ da := by omega
  have hdoe1 : da < 146097 := by omega
  have hdoy := civilFromDays_doy_aux da q1 q2 q3 ya hdoe0 hdoe1 hq1 hq2 hq3 hya
  refine ⟨⟨by omega, hdoe0, hdoe1⟩, ⟨by omega, by omega⟩, ⟨by omega, by omega⟩,
    ⟨by omega, by omega⟩, ⟨by omega, by omega⟩, ⟨by omega, by omega⟩,
    ⟨by omega, by omega⟩, ⟨by omega, by omega⟩⟩

theorem civilFromDays_lex_mono (z z' : Int) (h : z < z') :
    (civilFromDays z).1 < (civilFromDays z').1 ∨
      ((civilFromDays z).1 = (civilFromDays z').1 ∧
        ((civilFromDays z).2.1 < (civilFromDays z').2.1 ∨
          ((civilFromDays z).2.1 = (civilFromDays z').2.1 ∧
            (civilFromDays z).2.2 < (civilFromDays z').2.2))) := by
  unfold civilFromDays
  dsimp only
  set za := z + 719468 with hza
  set ea := za / 146097 with hea
  set da := za - ea * 146097 with hda
  set q1a := da / 1460 with hq1a
  set q2a := da / 36524 with hq2a
  set q3a := da / 146096 with hq3a
  set ya := (da - q1a + q2a - q3a) / 365 with hya
  set y0a := ya + ea * 400 with hy0a
  set f4a := ya / 4 with hf4a
  set f100a := ya / 100 with hf100a
  set doya := da - (365 * ya + f4a - f100a) with hdoya
  set mpa := (5 * doya + 2) / 153 with hmpa
  set qda := (153 * mpa + 2) / 5 with hqda
  set dda := doya - qda + 1 with hdda
  set zb := z' + 719468 with hzb
  set eb := zb / 146097 with heb
  set db := zb - eb * 146097 with hdb
  set q1b := db / 1460 with hq1b
  set q2b := db / 36524 with hq2b
  set q3b := db / 146096 with hq3b
  set yb := (db - q1b + q2b - q3b) / 365 with hyb
  set y0b := yb + eb * 400 with hy0b
  set f4b := yb / 4 with hf4b
  set f100b := yb / 100 with hf100b
  set doyb := db - (365 * yb + f4b - f100b) with hdoyb
  set mpb := (5 * doyb + 2) / 153 with hmpb
  set qdb := (153 * mpb + 2) / 5 with hqdb
  set ddb := doyb - qdb + 1 with hddb
  clear_value za ea da q1a q2a q3a ya y0a f4a f100a doya mpa qda dda
  clear_value zb eb db q1b q2b q3b yb y0b f4b f100b doyb mpb qdb ddb
  obtain ⟨hSa1, hSa2, hSa3, hSa4, hSa5, hSa6, hSa7, hSa8⟩ :=
    civilFromDays_summary z za ea da q1a q2a q3a ya f4a f100a doya mpa qda
      hza hea hda hq1a hq2a hq3a hya hf4a hf100a hdoya hmpa hqda
  obtain ⟨hSb1, hSb2, hSb3, hSb4, hSb5, hSb6, hSb7, hSb8⟩ :=
    civilFromDays_summary z' zb eb db q1b q2b q3b yb f4b f100b doyb mpb qdb
      hzb heb hdb hq1b hq2b hq3b hyb hf4b hf100b hdoyb hmpb hqdb
  clear hea hda hq1a hq2a hq3a hya hf4a hf100a hmpa hqda
  clear heb hdb hq1b hq2b hq3b hyb hf4b hf100b hmpb hqdb
  have hera : ea ≤ eb := by omega
  have hsy : ea * 400 + ya ≤ eb * 400 + yb := by
    rcases lt_or_ge ea eb with hc | hc
    · omega
    · have hce : ea = eb := by omega
      subst hce
      have hdad : da < db := by omega
      rcases lt_or_ge ya (yb + 1) with hyy | hyy
      · omega
      · exfalso
        have ht : 0 ≤ f100a - f100b := by omega
        rcases lt_or_ge (f100a - f100b) 1 with ht1 | ht1
        · omega
        · rcases lt_or_ge (f100a - f100b) 2 with ht2 | ht2
          · omega
          · omega
  rcases lt_or_ge mpa 10 with h10a | h10a <;> rcases lt_or_ge mpb 10 with h10b | h10b
  · simp only [if_pos h10a, if_pos h10b]
    rw [if_neg (by omega : ¬ mpa + 3 ≤ 2), if_neg (by omega : ¬ mpb + 3 ≤ 2)]
    rcases lt_trichotomy y0a y0b with hy | hy | hy
    · exact Or.inl hy
    · have hee : ea = eb ∧ ya = yb := by omega
      have hdd : da < db := by omega
      have hf4e : f4a = f4b := by omega
      have hf100e : f100a = f100b := by omega
      have hdoy : doya < doyb := by omega
      rcases lt_or_ge mpa mpb with hmp | hmp
      · exact Or.inr ⟨hy, Or.inl (by omega)⟩
      · have hmpe : mpa = mpb := by omega
        exact Or.inr ⟨hy, Or.inr ⟨by omega, by omega⟩⟩
    · exact absurd hy (by omega)
  · simp only [if_pos h10a, if_neg (by omega : ¬ mpb < 10)]
    rw [if_neg (by omega : ¬ mpa + 3 ≤ 2), if_pos (by omega : mpb + -9 ≤ 2)]
    exact Or.inl (by omega)
  · simp only [if_neg (by omega : ¬ mpa < 10), if_pos h10b]
    rw [if_pos (by omega : mpa + -9 ≤ 2), if_neg (by omega : ¬ mpb + 3 ≤ 2)]
    have hsys : ea * 400 + ya < eb * 400 + yb := by
      rcases lt_or_ge (ea * 400 + ya) (eb * 400 + yb) with hc | hc
      · exact hc
      · have hee : ea = eb ∧ ya = yb := by omega
        have hf4e : f4a = f4b := by omega
        have hf100e : f100a = f100b := by omega
        have hdoy : doya < doyb := by omega
        omega
    rcases lt_or_ge (y0a + 1) y0b with hY | hY
    · exact Or.inl hY
    · have hYe : y0a + 1 = y0b := by omega
      exact Or.inr ⟨hYe, Or.inl (by omega)⟩
  · simp only [if_neg (by omega : ¬ mpa < 10), if_neg (by omega : ¬ mpb < 10)]
    rw [if_pos (by omega : mpa + -9 ≤ 2), if_pos (by omega : mpb + -9 ≤ 2)]
    rcases lt_trichotomy (y0a + 1) (y0b + 1) with hy | hy | hy
    · exact Or.inl hy
    · have hee : ea = eb ∧ ya = yb := by omega
      have hdd : da < db := by omega
      have hf4e : f4a = f4b := by omega
      have hf100e : f100a = f100b := by omega
      have hdoy : doya < doyb := by omega
      rcases lt_or_ge mpa mpb with hmp | hmp
      · exact Or.inr ⟨hy, Or.inl (by omega)⟩
      · have hmpe : mpa = mpb := by omega
        exact Or.inr ⟨hy, Or.inr ⟨by omega, by omega⟩⟩
    · exact absurd hy (by omega)

theorem blt_iff (x y : Nat) : Nat.blt x y = true ↔ x < y := by
  simp [Nat.blt_eq]

theorem digitChar_toNat (k : Nat) : (digitChar k).toNat = 48 + k % 10 := by
  have h : (48 + k % 10).isValidChar := by
    constructor
    omega
  unfold digitChar
  rw [Char.ofNat, dif_pos h]
  rfl

theorem digitChar_inj_iff (a b : Nat) : digitChar a = digitChar b ↔ a % 10 = b % 10 := by
  constructor
  · intro h
    have := congrArg Char.toNat h
    rw [digitChar_toNat, digitChar_toNat] at this
    omega
  · intro h
    unfold digitChar
    rw [h]

theorem charListLt_irrefl (l : List Char) : charListLt l l = false := by
  induction l with
  | nil => rfl
  | cons c cs ih =>
    have hblt : Nat.blt c.toNat c.toNat = false := by
      cases h : Nat.blt c.toNat c.toNat
      · rfl
      · exact absurd ((blt_iff _ _).1 h) (by omega)
    simp [charListLt, hblt, ih]

theorem charListLt_asymm (l1 l2 : List Char) (h : charListLt l1 l2 = true) :
    charListLt l2 l1 = false := by
  induction l1 generalizing l2 with
  | nil =>
    cases l2 with
    | nil => simp [charListLt] at h
    | cons b bs => rfl
  | cons a as ih =>
    cases l2 with
    | nil => simp [charListLt] at h
    | cons b bs =>
      simp only [charListLt, Bool.or_eq_true, Bool.and_eq_true] at h ⊢
      rcases h with h | ⟨hbeq, hrec⟩
      · have hab : a.toNat < b.toNat := (blt_iff _ _).1 h
        have h1 : Nat.blt b.toNat a.toNat = false := by
          cases hc : Nat.blt b.toNat a.toNat
          · rfl
          · exact absurd ((blt_iff _ _).1 hc) (by omega)
        have h2 : (b == a) = false := by
          cases hc : b == a
          · rfl
          · have : b = a := by simpa using hc
            subst this
            omega
        simp [h1, h2]
      · have hab : a = b := by simpa using hbeq
        subst hab
        have h1 : Nat.blt a.toNat a.toNat = false := by
          cases hc : Nat.blt a.toNat a.toNat
          · rfl
          · exact absurd ((blt_iff _ _).1 hc) (by omega)
        simp [h1, ih bs hrec]

theorem charListLt_append_left (l r r' : List Char) :
    charListLt (l ++ r) (l ++ r') = charListLt r r' := by
  induction l with
  | nil => rfl
  | cons c cs ih =>
    have hblt : Nat.blt c.toNat c.toNat = false := by
      cases h : Nat.blt c.toNat c.toNat
      · rfl
      · exact absurd ((blt_iff _ _).1 h) (by omega)
    simp [charListLt, hblt, ih]

theorem charListLt_append_of_lt (l1 l2 r1 r2 : List Char) (hlen : l1.length = l2.length)
    (h : charListLt l1 l2 = true) : charListLt (l1 ++ r1) (l2 ++ r2) = true := by
  induction l1 generalizing l2 with
  | nil =>
    cases l2 with
    | nil => simp [charListLt] at h
    | cons b bs => simp at hlen
  | cons a as ih =>
    cases l2 with
    | nil => simp at hlen
    | cons b bs =>
      simp only [charListLt, Bool.or_eq_true, Bool.and_eq_true] at h ⊢
      rcases h with h | ⟨hbeq, hrec⟩
      · exact Or.inl h
      · exact Or.inr ⟨hbeq, ih bs (by simpa using hlen) hrec⟩

theorem pad2_lt_iff (a b : Nat) : charListLt (pad2 a) (pad2 b) = true ↔ a % 100 < b % 100 := by
  have e1 := digitChar_toNat (a / 10)
  have e2 := digitChar_toNat (b / 10)
  have e3 := digitChar_toNat a
  have e4 := digitChar_toNat b
  simp only [pad2, charListLt, Bool.or_eq_true, Bool.and_eq_true, blt_iff, e1, e2, e3, e4,
    beq_iff_eq, digitChar_inj_iff]
  constructor
  · rintro (h | ⟨h1, h2 | ⟨h2, h3⟩⟩)
    · omega
    · omega
    · simp at h3
  · intro h
    rcases Nat.lt_or_ge (a / 10 % 10) (b / 10 % 10) with hc | hc
    · exact Or.inl (by omega)
    · exact Or.inr ⟨by omega, Or.inl (by omega)⟩

theorem pad2_congr (a b : Nat) (h : a % 100 = b % 100) : pad2 a = pad2 b := by
  unfold pad2
  rw [(digitChar_inj_iff (a / 10) (b / 10)).2 (by omega), (digitChar_inj_iff a b).2 (by omega)]

theorem pad4_eq_append (n : Nat) : pad4 n = pad2 (n / 100) ++ pad2 n := by
  simp only [pad4, pad2, List.cons_append, List.nil_append]
  rw [Nat.div_div_eq_div_mul]

theorem pad4_lt_of_lt (a b : Nat) (ha : a ≤ 9999) (hb : b ≤ 9999) (h : a < b) :
    charListLt (pad4 a) (pad4 b) = true := by
  rw [pad4_eq_append, pad4_eq_append]
  rcases Nat.lt_or_ge (a / 100) (b / 100) with hc | hc
  · exact charListLt_append_of_lt _ _ _ _ rfl ((pad2_lt_iff _ _).2 (by omega))
  · have hdiv : a / 100 = b / 100 := by omega
    rw [hdiv, charListLt_append_left]
    exact (pad2_lt_iff _ _).2 (by omega)


theorem civilFromDays_ano_ge (z : Int) (h1 : -719162 ≤ z) : 1 ≤ (civilFromDays z).1 := by
  rcases eq_or_lt_of_le h1 with he | hlt
  · rw [← he]
    decide
  · have hmono := civilFromDays_lex_mono (-719162) z hlt
    have hc : civilFromDays (-719162) = (1, 1, 1) := by decide
    rw [hc] at hmono
    rcases hmono with h | ⟨h, -⟩
    · exact le_of_lt h
    · omega

theorem civilFromDays_ano_le (z : Int) (h2 : z ≤ 2932896) : (civilFromDays z).1 ≤ 9999 := by
  rcases eq_or_lt_of_le h2 with he | hlt
  · rw [he]
    decide
  · have hmono := civilFromDays_lex_mono z 2932896 hlt
    have hc : civilFromDays 2932896 = (9999, 12, 31) := by decide
    rw [hc] at hmono
    rcases hmono with h | ⟨h, -⟩
    · exact le_of_lt h
    · omega

theorem civilFromDays_md (z : Int) :
    1 ≤ (civilFromDays z).2.1 ∧ (civilFromDays z).2.1 ≤ 12 ∧
      1 ≤ (civilFromDays z).2.2 ∧ (civilFromDays z).2.2 ≤ 31 := by
  unfold civilFromDays
  dsimp only
  set za := z + 719468 with hza
  set ea := za / 146097 with hea
  set da := za - ea * 146097 with hda
  set q1a := da / 1460 with hq1a
  set q2a := da / 36524 with hq2a
  set q3a := da / 146096 with hq3a
  set ya := (da - q1a + q2a - q3a) / 365 with hya
  set f4a := ya / 4 with hf4a
  set f100a := ya / 100 with hf100a
  set doya := da - (365 * ya + f4a - f100a) with hdoya
  set mpa := (5 * doya + 2) / 153 with hmpa
  set qda := (153 * mpa + 2) / 5 with hqda
  clear_value za ea da q1a q2a q3a ya f4a f100a doya mpa qda
  obtain ⟨hS1, hS2, hS3, hS4, hS5, hS6, hS7, hS8⟩ :=
    civilFromDays_summary z za ea da q1a q2a q3a ya f4a f100a doya mpa qda
      hza hea hda hq1a hq2a hq3a hya hf4a hf100a hdoya hmpa hqda
  rcases lt_or_ge mpa 10 with h10 | h10
  · rw [if_pos h10]
    refine ⟨by omega, by omega, by omega, by omega⟩
  · rw [if_neg (by omega : ¬ mpa < 10)]
    refine ⟨by omega, by omega, by omega, by omega⟩

theorem isoOfDays_eq_pads (z : Int) (h1 : 1 ≤ (civilFromDays z).1)
    (h2 : (civilFromDays z).1 ≤ 9999) :
    isoOfDays z = ⟨pad4 (civilFromDays z).1.toNat ++
      '-' :: (pad2 (civilFromDays z).2.1.toNat ++ '-' :: pad2 (civilFromDays z).2.2.toNat)⟩ := by
  unfold isoOfDays isoChars
  rw [if_neg (by omega : ¬ (civilFromDays z).1 < 0), if_pos h2]

theorem isoOfDays_lt (z z' : Int) (hz1 : -719162 ≤ z) (hz2 : z ≤ 2932896)
    (hz1' : -719162 ≤ z') (hz2' : z' ≤ 2932896) (h : z < z') :
    strLt (isoOfDays z) (isoOfDays z') = true := by
  obtain ⟨hma1, hma2, hda1, hda2⟩ := civilFromDays_md z
  obtain ⟨hmb1, hmb2, hdb1, hdb2⟩ := civilFromDays_md z'
  have hya1 := civilFromDays_ano_ge z hz1
  have hya2 := civilFromDays_ano_le z hz2
  have hyb1 := civilFromDays_ano_ge z' hz1'
  have hyb2 := civilFromDays_ano_le z' hz2'
  have hmono := civilFromDays_lex_mono z z' h
  rw [isoOfDays_eq_pads z hya1 hya2, isoOfDays_eq_pads z' hyb1 hyb2]
  show charListLt _ _ = true
  dsimp only [String.toList]
  rcases hmono with hY | ⟨hY, hM | ⟨hM, hD⟩⟩
  · exact charListLt_append_of_lt _ _ _ _ rfl
      (pad4_lt_of_lt _ _ (by omega) (by omega) (by omega))
  · have hYt : (civilFromDays z).1.toNat = (civilFromDays z').1.toNat := by omega
    rw [hYt, charListLt_append_left]
    rw [show ('-' :: (pad2 (civilFromDays z).2.1.toNat ++ '-' :: pad2 (civilFromDays z).2.2.toNat)) =
      ['-'] ++ (pad2 (civilFromDays z).2.1.toNat ++ '-' :: pad2 (civilFromDays z).2.2.toNat) from rfl]
    rw [show ('-' :: (pad2 (civilFromDays z').2.1.toNat ++ '-' :: pad2 (civilFromDays z').2.2.toNat)) =
      ['-'] ++ (pad2 (civilFromDays z').2.1.toNat ++ '-' :: pad2 (civilFromDays z').2.2.toNat) from rfl]
    rw [charListLt_append_left]
    exact charListLt_append_of_lt _ _ _ _ rfl ((pad2_lt_iff _ _).2 (by omega))
  · have hYt : (civilFromDays z).1.toNat = (civilFromDays z').1.toNat := by omega
    have hMt : (civilFromDays z).2.1.toNat = (civilFromDays z').2.1.toNat := by omega
    rw [hYt, hMt, charListLt_append_left]
    rw [show ('-' :: (pad2 (civilFromDays z').2.1.toNat ++ '-' :: pad2 (civilFromDays z).2.2.toNat)) =
      (['-'] ++ pad2 (civilFromDays z').2.1.toNat ++ ['-']) ++ pad2 (civilFromDays z).2.2.toNat from by simp]
    rw [show ('-' :: (pad2 (civilFromDays z').2.1.toNat ++ '-' :: pad2 (civilFromDays z').2.2.toNat)) =
      (['-'] ++ pad2 (civilFromDays z').2.1.toNat ++ ['-']) ++ pad2 (civilFromDays z').2.2.toNat from by simp]
    rw [charListLt_append_left]
    exact (pad2_lt_iff _ _).2 (by omega)

theorem isoOfDays_not_lt (j k : Int) (hj1 : -719162 ≤ j) (hj2 : j ≤ 2932896)
    (hk1 : -719162 ≤ k) (hk2 : k ≤ 2932896) (h : k ≤ j) :
    strLt (isoOfDays j) (isoOfDays k) = false := by
  rcases eq_or_lt_of_le h with he | hlt
  · rw [he]
    exact charListLt_irrefl _
  · exact charListLt_asymm _ _ (isoOfDays_lt k j hk1 hk2 hj1 hj2 hlt)

/-- C8: the daily retention sweep deletes exactly the appointments dated more
than 30 days before today — an appointment dated `j` days since the epoch is
kept iff `j` is at least today minus 30 — and leaves the cancellations and
feedbacks collections (and every other component of the state) unchanged. -/
theorem limparAgendamentosAntigos_retencao (now : Int) (st : BotState) (j : Int)
    (a : Agendamento)
    (hnow1 : 0 ≤ now) (hnow2 : now / 86400000 ≤ 2932896)
    (hmem : a ∈ st.agendamentos) (hdata : a.data = isoOfDays j)
    (hj1 : -719162 ≤ j) (hj2 : j ≤ 2932896) :
    (limparAgendamentosAntigos now st).cancelamentos = st.cancelamentos ∧
    (limparAgendamentosAntigos now st).feedbacks = st.feedbacks ∧
    (limparAgendamentosAntigos now st).estados = st.estados ∧
    (limparAgendamentosAntigos now st).conversasChocolate = st.conversasChocolate ∧
    (limparAgendamentosAntigos now st).ultimoAgendamento = st.ultimoAgendamento ∧
    (limparAgendamentosAntigos now st).enviadas = st.enviadas ∧
    (limparAgendamentosAntigos now st).agendamentos =
      st.agendamentos.filter
        (fun b => ¬ strLt b.data (isoOfDays (now / 86400000 - 30))) ∧
    (a ∈ (limparAgendamentosAntigos now st).agendamentos ↔
      now / 86400000 - 30 ≤ j) := by
  refine ⟨rfl, rfl, rfl, rfl, rfl, rfl, rfl, ?_⟩
  have hT1 : (-719162 : Int) ≤ now / 86400000 - 30 := by omega
  have hT2 : now / 86400000 - 30 ≤ 2932896 := by omega
  unfold limparAgendamentosAntigos
  dsimp only
  rw [List.mem_filter]
  constructor
  · rintro ⟨-, hkeep⟩
    by_contra hlt
    push_neg at hlt
    rw [hdata, isoOfDays_lt j (now / 86400000 - 30) hj1 hj2 hT1 hT2 hlt] at hkeep
    simp at hkeep
  · intro hle
    refine ⟨hmem, ?_⟩
    rw [hdata, isoOfDays_not_lt j (now / 86400000 - 30) hj1 hj2 hT1 hT2 hle]
    decide

set_option maxRecDepth 100000 in
/-- Witness for C8: with now = 2026-01-01 (day 20454), the appointment dated
2025-12-01 (day 20423, 31 days ago) is deleted while the one dated 2025-12-03
(day 20425, 29 days ago) is kept. -/
theorem limparAgendamentosAntigos_retencao_witness :
    ¬ (⟨"Ana", isoOfDays 20423, "10:00", "a@c.us", 0⟩ : Agendamento) ∈
        (limparAgendamentosAntigos 1767225600000
          { agendamentos := [⟨"Ana", isoOfDays 20423, "10:00", "a@c.us", 0⟩,
              ⟨"Bia", isoOfDays 20425, "11:00", "b@c.us", 0⟩] }).agendamentos ∧
      (⟨"Bia", isoOfDays 20425, "11:00", "b@c.us", 0⟩ : Agendamento) ∈
        (limparAgendamentosAntigos 1767225600000
          { agendamentos := [⟨"Ana", isoOfDays 20423, "10:00", "a@c.us", 0⟩,
              ⟨"Bia", isoOfDays 20425, "11:00", "b@c.us", 0⟩] }).agendamentos := by
  constructor
  · intro hbad
    have h := (limparAgendamentosAntigos_retencao 1767225600000
        { agendamentos := [⟨"Ana", isoOfDays 20423, "10:00", "a@c.us", 0⟩,
            ⟨"Bia", isoOfDays 20425, "11:00", "b@c.us", 0⟩] } 20423
        ⟨"Ana", isoOfDays 20423, "10:00", "a@c.us", 0⟩
        (by decide) (by decide) (List.mem_cons_self _ _) rfl
        (by decide) (by decide)).2.2.2.2.2.2.2
    exact absurd (h.1 hbad) (by decide)
  · have h := (limparAgendamentosAntigos_retencao 1767225600000
        { agendamentos := [⟨"Ana", isoOfDays 20423, "10:00", "a@c.us", 0⟩,
            ⟨"Bia", isoOfDays 20425, "11:00", "b@c.us", 0⟩] } 20425
        ⟨"Bia", isoOfDays 20425, "11:00", "b@c.us", 0⟩
        (by decide) (by decide)
        (List.mem_cons_of_mem _ (List.mem_cons_self _ _)) rfl
        (by decide) (by decide)).2.2.2.2.2.2.2
    exact h.2 (by decide)
